import Mathlib

/-!
Verification development for the TheGridStrategy repository.

This file gives a shallow embedding of the repository's strategy-configuration
validation engine, grid calculation engine, validation/deployment stores and
the deployment orchestration code, and proves properties about them.

Modelling conventions:
* JavaScript numbers are modelled by `JSNum`: `nan`, signed infinities, or an
  exact rational.  All arithmetic the embedded code performs is exact rational
  arithmetic; this is a real-valued model of the double-precision expressions
  in the source (the source performs no operation whose control flow depends
  on rounding).
* JavaScript strings are Lean `String`s; `Record<string, string>` objects are
  association lists with unique keys, looked up with `recordGet`.
* `parseFloat` is modelled by `jsParseFloat`, implementing the JS grammar:
  leading whitespace is skipped, an optional sign, then either the literal
  `Infinity` or a decimal mantissa with optional fraction and exponent, taking
  the longest valid prefix; anything else is `nan`.
-/

/-- A JavaScript number: NaN, a signed infinity (`true` = `+Infinity`), or a
finite value modelled as an exact rational. -/
inductive JSNum where
  | nan : JSNum
  | inf : Bool → JSNum
  | num : ℚ → JSNum
deriving DecidableEq, Repr

namespace JSNum

/-- JS truthiness of a number: `NaN` and `0` are falsy, everything else truthy. -/
def truthy : JSNum → Bool
  | nan => false
  | inf _ => true
  | num q => decide (q ≠ 0)

/-- JS `<` on numbers: any comparison with `NaN` is false. -/
def lt : JSNum → JSNum → Bool
  | nan, _ => false
  | _, nan => false
  | inf s, inf t => !s && t
  | inf s, num _ => !s
  | num _, inf t => t
  | num a, num b => decide (a < b)

/-- JS `>=` on numbers: any comparison with `NaN` is false. -/
def ge : JSNum → JSNum → Bool
  | nan, _ => false
  | _, nan => false
  | inf s, inf t => s || !t
  | inf s, num _ => s
  | num _, inf t => !t
  | num a, num b => decide (b ≤ a)

/-- JS `<=` on numbers: any comparison with `NaN` is false. -/
def le : JSNum → JSNum → Bool
  | nan, _ => false
  | _, nan => false
  | inf s, inf t => t || !s
  | inf s, num _ => !s
  | num _, inf t => t
  | num a, num b => decide (a ≤ b)

/-- Sign used for IEEE multiplication of a finite value (`true` = nonnegative). -/
def qSign (q : ℚ) : Bool := decide (0 < q)

/-- JS multiplication (IEEE rules for the infinities and NaN, exact on finites). -/
def mul : JSNum → JSNum → JSNum
  | nan, _ => nan
  | _, nan => nan
  | inf s, inf t => inf (s == t)
  | inf s, num q => if q = 0 then nan else inf (s == qSign q)
  | num q, inf s => if q = 0 then nan else inf (s == qSign q)
  | num a, num b => num (a * b)

/-- JS addition (IEEE rules for the infinities and NaN, exact on finites). -/
def add : JSNum → JSNum → JSNum
  | nan, _ => nan
  | _, nan => nan
  | inf s, inf t => if s = t then inf s else nan
  | inf s, num _ => inf s
  | num _, inf s => inf s
  | num a, num b => num (a + b)

/-- `Math.pow` with a natural exponent, by repeated JS multiplication.
This matches `Math.pow` on every input reachable in the embedded code
(in particular `Math.pow(NaN, 0) = 1`). -/
def pow (b : JSNum) : Nat → JSNum
  | 0 => num 1
  | n + 1 => mul b (pow b n)

end JSNum

/-- Decimal digit as accepted by the `parseFloat` grammar. -/
def isDecDigit (c : Char) : Bool := '0' ≤ c && c ≤ '9'

/-- Value of a list of decimal digits, most significant first. -/
def digitsToNat (ds : List Char) : Nat :=
  ds.foldl (fun a c => 10 * a + (c.toNat - ('0').toNat)) 0

/-- Parse the mantissa of a decimal literal (digits, optional `.` and fraction
digits), returning the combined mantissa digits as a natural number together
with the fraction length, plus the unconsumed input; `none` when no valid
mantissa prefix exists. -/
def parseMantissa (cs : List Char) : Option ((Nat × Nat) × List Char) :=
  let ip := cs.takeWhile isDecDigit
  let rest1 := cs.dropWhile isDecDigit
  if ip.isEmpty then
    match rest1 with
    | '.' :: r2 =>
      let fp := r2.takeWhile isDecDigit
      if fp.isEmpty then none
      else some ((digitsToNat fp, fp.length), r2.dropWhile isDecDigit)
    | _ => none
  else
    match rest1 with
    | '.' :: r2 =>
      let fp := r2.takeWhile isDecDigit
      some ((digitsToNat ip * 10 ^ fp.length + digitsToNat fp, fp.length),
        r2.dropWhile isDecDigit)
    | _ => some ((digitsToNat ip, 0), rest1)

/-- Parse the part after an exponent mark `e`/`E`: optional sign, then at least
one digit; `none` when the mark is not followed by digits (so it is not
consumed). -/
def parseExpAfterMark (r : List Char) : Option (Int × List Char) :=
  match r with
  | '+' :: r2 =>
    let ds := r2.takeWhile isDecDigit
    if ds.isEmpty then none else some ((digitsToNat ds : Int), r2.dropWhile isDecDigit)
  | '-' :: r2 =>
    let ds := r2.takeWhile isDecDigit
    if ds.isEmpty then none else some (-(digitsToNat ds : Int), r2.dropWhile isDecDigit)
  | _ =>
    let ds := r.takeWhile isDecDigit
    if ds.isEmpty then none else some ((digitsToNat ds : Int), r.dropWhile isDecDigit)

/-- Parse an optional exponent part; when absent the exponent is `0`. -/
def parseExpPart (cs : List Char) : Int :=
  match cs with
  | 'e' :: r =>
    match parseExpAfterMark r with
    | some (e, _) => e
    | none => 0
  | 'E' :: r =>
    match parseExpAfterMark r with
    | some (e, _) => e
    | none => 0
  | _ => 0

/-- The syntactic result of `parseFloat`: NaN, a signed `Infinity`, or a
finite decimal literal described by its sign, mantissa digits, fraction
length and decimal exponent. -/
inductive ParsedFloat where
  | nan : ParsedFloat
  | inf : Bool → ParsedFloat
  | fin : Bool → Nat → Nat → Int → ParsedFloat
deriving DecidableEq, Repr

/-- The syntactic phase of JS `parseFloat` on a list of characters (entirely
`Nat`/`Int`/`Char` computation). -/
def jsParseFloatCore (cs0 : List Char) : ParsedFloat :=
  let cs1 := cs0.dropWhile Char.isWhitespace
  let sgn : Bool × List Char :=
    match cs1 with
    | '+' :: r => (true, r)
    | '-' :: r => (false, r)
    | r => (true, r)
  let cs := sgn.2
  if cs.take 8 = ['I', 'n', 'f', 'i', 'n', 'i', 't', 'y'] then ParsedFloat.inf sgn.1
  else
    match parseMantissa cs with
    | none => ParsedFloat.nan
    | some (m, rest) => ParsedFloat.fin sgn.1 m.1 m.2 (parseExpPart rest)

/-- The numeric value of a parsed literal: sign × mantissa / 10^fracLen ×
10^exponent, as an exact rational. -/
def ParsedFloat.value : ParsedFloat → JSNum
  | ParsedFloat.nan => JSNum.nan
  | ParsedFloat.inf p => JSNum.inf p
  | ParsedFloat.fin pos m fracLen e =>
    JSNum.num ((if pos then (1 : ℚ) else -1) * (m : ℚ) / (10 : ℚ) ^ fracLen * (10 : ℚ) ^ e)

/-- JS `parseFloat` on a string. -/
def jsParseFloat (s : String) : JSNum := (jsParseFloatCore s.data).value

/-- Lookup in a JS `Record<string, string>` (association list model). -/
def recordGet (fv : List (String × String)) (k : String) : Option String :=
  (fv.find? (fun p => p.1 = k)).map (fun p => p.2)

/-- The JS expression `fieldValues[key] || '0'`: a missing key or an empty
(falsy) string value is replaced by `'0'`. -/
def getOrZero (fv : List (String × String)) (k : String) : String :=
  match recordGet fv k with
  | none => "0"
  | some v => if v = "" then "0" else v

/-- A grid level record, from `GridLevel` in `base/types.ts`:
`{level, price, amount, total}`. -/
structure GridLevel where
  level : Nat
  price : JSNum
  amount : JSNum
  total : JSNum
deriving DecidableEq, Repr

/-- `GridCalculations.calculateMaxReturns` from `GridStrategyConfig.ts`:
parses the three grid inputs with `parseFloat(fieldValues[k] || '0')`, returns
`0` unless all three are truthy, and otherwise sums
`baseline * (1+growth)^i * trancheSize` over the fixed 10-level horizon. -/
def calculateMaxReturns (fv : List (String × String)) : JSNum :=
  let baselineRatio := jsParseFloat (getOrZero fv ("baseline-io-ratio"))
  let growth := jsParseFloat (getOrZero fv ("io-ratio-growth"))
  let trancheSize := jsParseFloat (getOrZero fv ("tranche-size"))
  if !baselineRatio.truthy || !growth.truthy || !trancheSize.truthy then
    JSNum.num 0
  else
    (List.range 10).foldl
      (fun acc i =>
        JSNum.add acc
          (JSNum.mul (JSNum.mul baselineRatio (JSNum.pow (JSNum.add (JSNum.num 1) growth) i))
            trancheSize))
      (JSNum.num 0)

/-- `GridCalculations.calculateGridLevels` from `GridStrategyConfig.ts`:
same guard as `calculateMaxReturns` (returning `[]`), otherwise the fixed
5-level visualization ladder. -/
def calculateGridLevels (fv : List (String × String)) : List GridLevel :=
  let baselineRatio := jsParseFloat (getOrZero fv ("baseline-io-ratio"))
  let growth := jsParseFloat (getOrZero fv ("io-ratio-growth"))
  let trancheSize := jsParseFloat (getOrZero fv ("tranche-size"))
  if !baselineRatio.truthy || !growth.truthy || !trancheSize.truthy then
    []
  else
    (List.range 5).map (fun i =>
      let price := JSNum.mul baselineRatio (JSNum.pow (JSNum.add (JSNum.num 1) growth) i)
      { level := i + 1, price := price, amount := trancheSize,
        total := JSNum.mul price trancheSize })

/-- JS `String.prototype.trim` (whitespace stripped from both ends). -/
def jsTrim (s : String) : String :=
  ⟨((s.data.dropWhile Char.isWhitespace).reverse.dropWhile Char.isWhitespace).reverse⟩

/-- One check of a zod string schema: `min(n, msg)` (length check) or
`refine(pred, msg)` (refinement). -/
inductive ZodCheck where
  | minLength : Nat → String → ZodCheck
  | refinement : (String → Bool) → String → ZodCheck

/-- A zod string schema as the embedded code builds it: an ordered list of
checks plus the `optional` wrapper flag (`transform` does not affect
validation of a string input and needs no field). -/
structure ZodStringSchema where
  checks : List ZodCheck
  isOptional : Bool

/-- `z.string()`. -/
def zodString : ZodStringSchema := ⟨[], false⟩

/-- `.min(n, msg)`: returns a new schema with the length check appended. -/
def ZodStringSchema.min (s : ZodStringSchema) (n : Nat) (msg : String) : ZodStringSchema :=
  { s with checks := s.checks ++ [ZodCheck.minLength n msg] }

/-- `.refine(pred, msg)`: returns a NEW schema with the refinement appended;
like the zod original it does not mutate its receiver. -/
def ZodStringSchema.refine (s : ZodStringSchema) (p : String → Bool) (msg : String) :
    ZodStringSchema :=
  { s with checks := s.checks ++ [ZodCheck.refinement p msg] }

/-- `.optional()`. -/
def ZodStringSchema.optional (s : ZodStringSchema) : ZodStringSchema :=
  { s with isOptional := true }

/-- Run one check on a string input, returning the issue message on failure. -/
def zodRunCheck (v : String) : ZodCheck → Option String
  | ZodCheck.minLength n msg => if n ≤ v.length then none else some msg
  | ZodCheck.refinement p msg => if p v then none else some msg

/-- The issue messages `safeParse` reports for a string input: zod collects the
message of every failing check in chain order (`optional` only matters for an
`undefined` input, and `transform` runs after validation). -/
def ZodStringSchema.parseErrors (s : ZodStringSchema) (v : String) : List String :=
  s.checks.filterMap (zodRunCheck v)

/-- `FieldMetadata.validation` from `types.ts`. -/
structure FieldValidation where
  required : Bool
  customMessage : Option String := none
deriving DecidableEq, Repr

/-- `FieldMetadata` from `types.ts`. -/
structure FieldMetadata where
  binding : String
  inputType : String
  placeholder : String
  helpText : String
  step : Option String := none
  min : Option String := none
  max : Option String := none
  validation : Option FieldValidation := none
deriving DecidableEq, Repr

/-- The JS truthiness test `field.validation?.required` used throughout the
source (`undefined` is falsy). -/
def FieldMetadata.isRequired (f : FieldMetadata) : Bool :=
  match f.validation with
  | none => false
  | some v => v.required

/-- The numeric refinement closure of `buildFieldSchema` (lines 43-50):
empty/whitespace passes for a non-required field, otherwise
`!isNaN(parseFloat(val))`. -/
def numericRefineCheck (field : FieldMetadata) (val : String) : Bool :=
  if !field.isRequired && (val = "" || jsTrim val = "") then true
  else decide (jsParseFloat val ≠ JSNum.nan)

/-- The `min` refinement closure of `buildFieldSchema` (lines 53-56), with the
field's `min` string passed explicitly: `parseFloat(val) >= parseFloat(min)`. -/
def minRefineCheck (field : FieldMetadata) (m : String) (val : String) : Bool :=
  if val = "" || jsTrim val = "" then !field.isRequired
  else JSNum.ge (jsParseFloat val) (jsParseFloat m)

/-- The `max` refinement closure of `buildFieldSchema` (lines 60-63):
`parseFloat(val) <= parseFloat(max)`. -/
def maxRefineCheck (field : FieldMetadata) (m : String) (val : String) : Bool :=
  if val = "" || jsTrim val = "" then !field.isRequired
  else JSNum.le (jsParseFloat val) (jsParseFloat m)

/-- The custom-message refinement closure of `buildFieldSchema` (lines 68-73):
it returns `true` on every input. -/
def customMessageCheck (field : FieldMetadata) (val : String) : Bool :=
  if !field.isRequired && (val = "" || jsTrim val = "") then true
  else true

/-- `DynamicSchemaBuilder.buildFieldSchema`.  Faithful to the source: zod's
`.refine` returns a new schema and never mutates its receiver, and the source
calls `schema.refine(...)` for the numeric, min, max and custom-message rules
WITHOUT assigning the result back (lines 43-74).  Those calls are therefore
modelled as discarded `let _ :=` bindings: they contribute no check to the
schema that is returned.  Only the required rule `.min(1, binding + " is
required")` (line 39) attaches a check; `.transform(val => val || '')`
(line 80) does not affect validation of a string input. -/
def buildFieldSchema (field : FieldMetadata) : ZodStringSchema :=
  let schema := zodString
  let schema := if field.isRequired then
      schema.min 1 (field.binding ++ " is required")
    else schema
  let _ := if field.inputType = "number" then
      let _ := schema.refine (numericRefineCheck field) ("Must be a valid number")
      let _ := match field.min with
        | some m => some (schema.refine (minRefineCheck field m) ("Must be at least " ++ m))
        | none => none
      let _ := match field.max with
        | some m => some (schema.refine (maxRefineCheck field m) ("Must be at most " ++ m))
        | none => none
      ()
    else ()
  let _ := match field.validation with
    | some v =>
      match v.customMessage with
      | some msg => some (schema.refine (customMessageCheck field) msg)
      | none => none
    | none => none
  if !field.isRequired then schema.optional else schema

/-- `StrategyConfig` as the claims use it (name/description/version and the
ordered field-metadata list; calculations are the free functions above). -/
structure StrategyConfigModel where
  name : String
  description : String
  version : String
  fields : List FieldMetadata
deriving DecidableEq, Repr

/-- `getFieldMetadata(binding)`: `GRID_FIELD_METADATA[binding] || null`. -/
def StrategyConfigModel.getFieldMetadata (cfg : StrategyConfigModel) (binding : String) :
    Option FieldMetadata :=
  cfg.fields.find? (fun f => f.binding = binding)

/-- `getAllFieldMetadata()`: the fields in declaration order. -/
def StrategyConfigModel.getAllFieldMetadata (cfg : StrategyConfigModel) : List FieldMetadata :=
  cfg.fields

/-- `DynamicSchemaBuilder.validateField`: unknown binding yields `[]`,
otherwise the issue messages of the field's schema on the value. -/
def validateField (strategy : StrategyConfigModel) (binding value : String) : List String :=
  match strategy.getFieldMetadata binding with
  | none => []
  | some fieldMetadata => (buildFieldSchema fieldMetadata).parseErrors value

/-- `GRID_FIELD_METADATA['baseline-io-ratio']`. -/
def gridBaselineMeta : FieldMetadata :=
  { binding := "baseline-io-ratio", inputType := "number",
    placeholder := "e.g., 0.0005 (price per token)",
    helpText := "Starting price for your grid. This should be near the current market price.",
    step := some ("0.0001"), min := some ("0"),
    validation := some { required := true,
                         customMessage := some ("Must be a positive number representing the starting price") } }

/-- `GRID_FIELD_METADATA['io-ratio-growth']`. -/
def gridGrowthMeta : FieldMetadata :=
  { binding := "io-ratio-growth", inputType := "number",
    placeholder := "e.g., 0.05 (5% growth per level)",
    helpText := "Growth rate determines spacing between grid levels. 0.05 = 5% price increase per level.",
    step := some ("0.01"), min := some ("0"), max := some ("10"),
    validation := some { required := true,
                         customMessage := some ("Must be between 0 and 10 (e.g., 0.2 for 20% growth)") } }

/-- `GRID_FIELD_METADATA['tranche-size']`. -/
def gridTrancheMeta : FieldMetadata :=
  { binding := "tranche-size", inputType := "number",
    placeholder := "e.g., 1000 (tokens per level)",
    helpText := "Amount of tokens to sell at each grid level.",
    step := some ("0.001"), min := some ("0"),
    validation := some { required := true,
                         customMessage := some ("Must be a positive number (e.g., 100)") } }

/-- `GRID_FIELD_METADATA['seconds-per-tranche']`. -/
def gridSecondsMeta : FieldMetadata :=
  { binding := "seconds-per-tranche", inputType := "number",
    placeholder := "e.g., 3600 (1 hour)",
    helpText := "Time to wait before refilling each grid level. Set to 0 to disable auto-refill.",
    step := some ("1"), min := some ("0"), max := some ("31536000"),
    validation := some { required := false,
                         customMessage := some ("Must be between 0 and 31,536,000 seconds (1 year)") } }

/-- The grid strategy configuration (`GridStrategyConfig`). -/
def gridStrategyConfig : StrategyConfigModel :=
  { name := "Grid",
    description := "A strategy that places automated orders at fixed price intervals",
    version := "1.0.0",
    fields := [gridBaselineMeta, gridGrowthMeta, gridTrancheMeta, gridSecondsMeta] }

/-- `strategyRegistry.get`: the registry singleton registers exactly the grid
strategy in its constructor; an absent key yields `null`. -/
def strategyRegistryGet (key : String) : Option StrategyConfigModel :=
  if key = "grid" then some gridStrategyConfig else none

/-- `ValidationState` from `types.ts`; the `errors` object is an association
list with unique keys (`Object.keys(errors).length === 0` is emptiness). -/
structure ValidationState where
  isValid : Bool
  errors : List (String × List String)
  isValidating : Bool
deriving DecidableEq, Repr

/-- `validationStore.clearAllErrors`: empties the errors object and sets
`isValid` to `false` unconditionally. -/
def clearAllErrors (s : ValidationState) : ValidationState :=
  { s with errors := [], isValid := false }

/-- `validationStore.clearFieldErrors(field)`: deletes the field's entry and
recomputes `isValid` as emptiness of the remaining errors object. -/
def clearFieldErrors (field : String) (s : ValidationState) : ValidationState :=
  let newErrors := s.errors.filter (fun p => p.1 ≠ field)
  { s with errors := newErrors, isValid := newErrors.isEmpty }

/-- `validationStore.reset`. -/
def validationStoreReset : ValidationState :=
  { isValid := false, errors := [], isValidating := false }

/-- `WalletState` (the parts the orchestration reads). -/
structure WalletState where
  isConnected : Bool
  address : Option String
  chainId : Option Int
deriving DecidableEq, Repr

/-- `StrategyState` (the parts the claims read: the strategy key, the field
values record and the all-tokens-selected flag). -/
structure StrategyState where
  strategyKey : String
  allTokensSelected : Bool
  fieldValues : List (String × String)
deriving DecidableEq, Repr

/-- The fixed fallback list in `hasRequiredValues` (validation.ts line 151). -/
def fallbackRequiredFields : List String :=
  ["baseline-io-ratio", "io-ratio-growth", "tranche-size"]

/-- The per-value check in `hasRequiredValues` (validation.ts line 155):
`value && value.trim() !== '' && value !== '0' && value !== 'NaN'` — a
string-level comparison (an absent value is falsy). -/
def checkRequiredValue : Option String → Bool
  | none => false
  | some value => value ≠ "" && jsTrim value ≠ "" && value ≠ "0" && value ≠ "NaN"

/-- Derived `hasRequiredValues` (validation.ts lines 135-166): a failed
registry lookup yields `false`; otherwise the required-marked bindings are
checked, with the fixed 3-field fallback used when that list is empty. -/
def hasRequiredValues (s : StrategyState) : Bool :=
  match strategyRegistryGet s.strategyKey with
  | none => false
  | some strategyConfig =>
    let requiredFields :=
      (strategyConfig.getAllFieldMetadata.filter (fun f => f.isRequired)).map
        (fun f => f.binding)
    let fieldsToCheck :=
      if requiredFields.length > 0 then requiredFields else fallbackRequiredFields
    fieldsToCheck.all (fun f => checkRequiredValue (recordGet s.fieldValues f))

/-- Deployment steps (`DeploymentState['currentStep']`). -/
inductive Step where
  | idle
  | approving
  | deploying
  | success
  | error
deriving DecidableEq, Repr

/-- `DeploymentState` from `types.ts`. -/
structure DeploymentState where
  isDeploying : Bool
  currentStep : Step
  transactionHash : Option String := none
  explorerUrl : Option String := none
  error : Option String := none
deriving DecidableEq, Repr

/-- `deploymentStore.startDeployment`. -/
def startDeployment (s : DeploymentState) : DeploymentState :=
  { s with isDeploying := true, currentStep := Step.approving, error := none }

/-- `deploymentStore.setStep`. -/
def setStep (s : DeploymentState) (step : Step) : DeploymentState :=
  { s with currentStep := step }

/-- `deploymentStore.setSuccess`. -/
def setSuccess (s : DeploymentState) (transactionHash explorerUrl : String) : DeploymentState :=
  { s with
    isDeploying := false, currentStep := Step.success,
    transactionHash := some transactionHash, explorerUrl := some explorerUrl, error := none }

/-- `deploymentStore.setError`. -/
def setError (s : DeploymentState) (e : String) : DeploymentState :=
  { s with isDeploying := false, currentStep := Step.error, error := some e }

/-- `deploymentStore.clearSuccess`. -/
def clearSuccess (s : DeploymentState) : DeploymentState :=
  { s with
    currentStep := Step.idle, transactionHash := none,
    explorerUrl := none, error := none }

/-- `deploymentStore.reset`. -/
def deploymentStoreReset : DeploymentState :=
  { isDeploying := false, currentStep := Step.idle }

/-- Derived `canSubmit` (validation.ts lines 172-194). -/
def canSubmit (wallet : WalletState) (strategy : StrategyState) (validation : ValidationState)
    (deployment : DeploymentState) (hasValues : Bool) : Bool :=
  let walletConnected := wallet.isConnected
  let tokensSelected := strategy.allTokensSelected
  let formValid := validation.isValid && validation.errors.isEmpty
  let notDeploying := !deployment.isDeploying
  walletConnected && tokensSelected && hasValues && formValid && notDeploying

/-- An approval from the gateway's transaction-argument response. -/
structure Approval where
  token : String
  calldata : String
deriving DecidableEq, Repr

/-- The gateway's transaction-argument response value
(`DeploymentTransactionArgs`). -/
structure TxArgs where
  approvals : List Approval
  deploymentCalldata : String
  orderbookAddress : String
  chainId : Int
deriving DecidableEq, Repr

/-- One call to the Transaction Submission Service (`sendTransaction(config,
{data, to})`).  Every call is recorded, whether it resolves or rejects. -/
structure Submission where
  data : String
  toAddress : String
deriving DecidableEq, Repr

/-- A JS rejection value as the wrappers see it: `some msg` for an `Error`
with that message, `none` for a non-`Error` rejection. -/
abbrev JSReject := Option String

/-- `sendBlockchainTransaction`: rethrows an `Error` whose message is the
original message when the rejection was an `Error`, else the phase fallback
`'Transaction failed'`.  The thrown value is therefore always an `Error`. -/
def sendBlockchainTransactionResult (outcome : Except JSReject String) : Except String String :=
  match outcome with
  | Except.ok h => Except.ok h
  | Except.error e => Except.error (e.getD ("Transaction failed"))

/-- `sendApprovalTransaction`: wraps the (always-`Error`) failure of
`sendBlockchainTransaction` as `'Approval failed: ' + message`. -/
def sendApprovalTransactionResult (outcome : Except JSReject String) : Except String String :=
  match sendBlockchainTransactionResult outcome with
  | Except.ok h => Except.ok h
  | Except.error m => Except.error ("Approval failed: " ++ m)

/-- `sendDeploymentTransaction`: wraps the failure as
`'Deployment failed: ' + message`. -/
def sendDeploymentTransactionResult (outcome : Except JSReject String) : Except String String :=
  match sendBlockchainTransactionResult outcome with
  | Except.ok h => Except.ok h
  | Except.error m => Except.error ("Deployment failed: " ++ m)

/-- `createExplorerUrl` from the helpers: network key + contract address. -/
def createExplorerUrl (networkKey orderbookAddress : String) : String :=
  "https://v2.raindex.finance/orders/" ++ networkKey ++ "-" ++ orderbookAddress

/-- The external world of one deployment attempt: wallet session, gateway
response, and the submission service's outcome for each transaction
(`approvalOutcomes i` is the fate of the `i`-th approval submission). -/
structure Env where
  wallet : WalletState
  guiAvailable : Bool
  networkKey : String
  gatewayArgs : Except JSReject TxArgs
  approvalOutcomes : Nat → Except JSReject String
  deployOutcome : Except JSReject String

/-- The `for (const approval of approvals)` loop: submits approvals strictly
sequentially; an `await` that rejects aborts the loop.  Returns the
submissions made (in order) and the first failure's wrapped message. -/
def submitApprovals (outcomes : Nat → Except JSReject String) :
    List Approval → Nat → List Submission × Option String
  | [], _ => ([], none)
  | a :: rest, i =>
    match sendApprovalTransactionResult (outcomes i) with
    | Except.ok _ =>
      let r := submitApprovals outcomes rest (i + 1)
      ({ data := a.calldata, toAddress := a.token } :: r.1, r.2)
    | Except.error m => ([{ data := a.calldata, toAddress := a.token }], some m)

/-- The page-level state `handleFormSubmit` writes: the deployment store, the
validation store, the strategy store's field values and token flag, and the
gui store's error banner. -/
structure PageState where
  deployment : DeploymentState
  validation : ValidationState
  fieldValues : List (String × String)
  allTokensSelected : Bool
  guiError : Option String
deriving DecidableEq, Repr

/-- JS truthiness of `wallet.address` (`undefined` and `''` are falsy). -/
def addressTruthy : Option String → Bool
  | none => false
  | some a => a ≠ ""

/-- JS object spread merge `{ ...a, ...b }` on string records: the keys of
`a` in order (taking `b`'s value when `b` also has the key), then the keys of
`b` absent from `a`, in order. -/
def recordMerge (a b : List (String × String)) : List (String × String) :=
  (a.map (fun p =>
    match recordGet b p.1 with
    | some v => (p.1, v)
    | none => p))
    ++ b.filter (fun p => (recordGet a p.1).isNone)

/-- `strategyStore.setFieldValues(values)` (strategy store): MERGES the given
record into the current field values (spread of `state.fieldValues` then of
`values`), so passing the empty record leaves the field values unchanged
(`maxReturns` is then recomputed from the unchanged values). -/
def setFieldValues (fieldValues values : List (String × String)) :
    List (String × String) :=
  recordMerge fieldValues values

/-- `resetFormAndStrategy` (StrategyDeploymentPage.svelte lines 180-187):
resets the validation store and clears the all-tokens-selected flag; the call
`strategyStore.setFieldValues({})` merges the empty record and therefore
leaves the strategy store's field values unchanged (the felte `reset()`
touches only the external form widget state). -/
def resetFormAndStrategy (st : PageState) : PageState :=
  { st with
    validation := validationStoreReset,
    fieldValues := setFieldValues st.fieldValues [],
    allTokensSelected := false }

/-- `handleFormSubmit` (StrategyDeploymentPage.svelte lines 504-544): the
deployment orchestration.  Returns the final page state and the ordered list
of transaction-submission calls made. -/
def handleFormSubmit (env : Env) (st : PageState) : PageState × List Submission :=
  if !env.wallet.isConnected || !addressTruthy env.wallet.address || !env.guiAvailable then
    ({ st with guiError := some ("Please connect your wallet first") }, [])
  else
    let d1 := startDeployment st.deployment
    match env.gatewayArgs with
    | Except.error e =>
      -- `prepareDeploymentTransaction` rethrows; the catch-all stores
      -- `error instanceof Error ? error.message : 'Deployment failed'`.
      ({ st with deployment := setError d1 (e.getD ("Deployment failed")) }, [])
    | Except.ok args =>
      if env.wallet.chainId ≠ some args.chainId then
        ({ st with
            deployment := setError d1 ("Please switch to the correct network (Chain ID: "
              ++ toString args.chainId ++ ")") }, [])
      else
        let d2 := if args.approvals.length > 0 then setStep d1 Step.approving else d1
        let ar := submitApprovals env.approvalOutcomes args.approvals 0
        match ar.2 with
        | some m => ({ st with deployment := setError d2 m }, ar.1)
        | none =>
          let d3 := setStep d2 Step.deploying
          let deploySub : Submission :=
            { data := args.deploymentCalldata, toAddress := args.orderbookAddress }
          match sendDeploymentTransactionResult env.deployOutcome with
          | Except.error m =>
            ({ st with deployment := setError d3 m }, ar.1 ++ [deploySub])
          | Except.ok transactionHash =>
            let explorerUrl := createExplorerUrl env.networkKey args.orderbookAddress
            let stSuccess := { st with deployment := setSuccess d3 transactionHash explorerUrl }
            (resetFormAndStrategy stSuccess, ar.1 ++ [deploySub])

/-- The three inputs `GridCalculations` reads from the field-value map. -/
def gridCalculationKeys : List String :=
  ["baseline-io-ratio", "io-ratio-growth", "tranche-size"]

/-- The `fieldsToCheck` list of `hasRequiredValues` for a found strategy
configuration: its required-marked bindings, or the fixed fallback when the
strategy marks none as required. -/
def requiredOrFallback (cfg : StrategyConfigModel) : List String :=
  let requiredFields :=
    (cfg.getAllFieldMetadata.filter (fun f => f.isRequired)).map (fun f => f.binding)
  if requiredFields.length > 0 then requiredFields else fallbackRequiredFields

/-- The reference field-value map of §8: baseline 0.5, growth 0.1, tranche 100. -/
def fvGoodGrid : List (String × String) :=
  [("baseline-io-ratio", "0.5"), ("io-ratio-growth", "0.1"), ("tranche-size", "100")]

/-- A field-value map whose baseline parses to a negative number. -/
def fvNegativeBaseline : List (String × String) :=
  [("baseline-io-ratio", "-1"), ("io-ratio-growth", "0.1"), ("tranche-size", "100")]

/-- The degenerate map with growth exactly `'0'` and the other inputs valid. -/
def fvZeroGrowth : List (String × String) :=
  [("baseline-io-ratio", "0.5"), ("io-ratio-growth", "0"), ("tranche-size", "100")]

/-- A strategy state whose key is not registered but whose field values all
satisfy the fallback per-value check. -/
def cxRegistryState : StrategyState :=
  { strategyKey := "unknown", allTokensSelected := true,
    fieldValues :=
      [("baseline-io-ratio", "1"), ("io-ratio-growth", "1"), ("tranche-size", "1")] }

/-- Two concrete approvals for the orchestration fixtures. -/
def approvalA : Approval := { token := "0xtokenA", calldata := "0xapproveA" }

/-- Second concrete approval. -/
def approvalB : Approval := { token := "0xtokenB", calldata := "0xapproveB" }

/-- Gateway response with two approvals, required chain 137. -/
def txArgsTwoApprovals : TxArgs :=
  { approvals := [approvalA, approvalB], deploymentCalldata := "0xdeploycalldata",
    orderbookAddress := "0xorderbook", chainId := 137 }

/-- Gateway response with no approvals, required chain 137. -/
def txArgsNoApprovals : TxArgs :=
  { approvals := [], deploymentCalldata := "0xdeploycalldata",
    orderbookAddress := "0xorderbook", chainId := 137 }

/-- Environment whose wallet is on chain 1 while the gateway requires 137. -/
def envChainMismatch : Env :=
  { wallet := { isConnected := true, address := some ("0xuser"), chainId := some 1 },
    guiAvailable := true, networkKey := "flare",
    gatewayArgs := Except.ok txArgsNoApprovals,
    approvalOutcomes := fun _ => Except.ok ("0xapprovehash"),
    deployOutcome := Except.ok ("0xdeployhash") }

/-- Environment with two queued approvals whose first submission rejects. -/
def envApprovalFail : Env :=
  { wallet := { isConnected := true, address := some ("0xuser"), chainId := some 137 },
    guiAvailable := true, networkKey := "flare",
    gatewayArgs := Except.ok txArgsTwoApprovals,
    approvalOutcomes := fun i =>
      if i = 0 then Except.error (some ("user rejected request"))
      else Except.ok ("0xapprovehash"),
    deployOutcome := Except.ok ("0xdeployhash") }

/-- Environment for the zero-approval success path. -/
def envZeroApprovals : Env :=
  { wallet := { isConnected := true, address := some ("0xuser"), chainId := some 137 },
    guiAvailable := true, networkKey := "flare",
    gatewayArgs := Except.ok txArgsNoApprovals,
    approvalOutcomes := fun _ => Except.ok ("0xapprovehash"),
    deployOutcome := Except.ok ("0xdeployhash") }

/-- A page state mid-session: pristine deployment store, one field filled. -/
def pageState0 : PageState :=
  { deployment := deploymentStoreReset, validation := validationStoreReset,
    fieldValues := [("baseline-io-ratio", "0.5")], allTokensSelected := true,
    guiError := none }

/-! ### Helper lemmas -/

/-- Evaluation of `parseFloat` on `"0.5"`. -/
theorem parse_half : jsParseFloat ("0.5") = JSNum.num (1 / 2) := by
  rw [jsParseFloat,
    show jsParseFloatCore ("0.5").data = ParsedFloat.fin true 5 1 0 from by decide,
    ParsedFloat.value]
  norm_num

/-- Evaluation of `parseFloat` on `"0.1"`. -/
theorem parse_tenth : jsParseFloat ("0.1") = JSNum.num (1 / 10) := by
  rw [jsParseFloat,
    show jsParseFloatCore ("0.1").data = ParsedFloat.fin true 1 1 0 from by decide,
    ParsedFloat.value]
  norm_num

/-- Evaluation of `parseFloat` on `"100"`. -/
theorem parse_hundred : jsParseFloat ("100") = JSNum.num 100 := by
  rw [jsParseFloat,
    show jsParseFloatCore ("100").data = ParsedFloat.fin true 100 0 0 from by decide,
    ParsedFloat.value]
  norm_num

/-- Evaluation of `parseFloat` on `"0"`. -/
theorem parse_zero : jsParseFloat ("0") = JSNum.num 0 := by
  rw [jsParseFloat,
    show jsParseFloatCore ("0").data = ParsedFloat.fin true 0 0 0 from by decide,
    ParsedFloat.value]
  norm_num

/-- Evaluation of `parseFloat` on `"-1"`. -/
theorem parse_neg_one : jsParseFloat ("-1") = JSNum.num (-1) := by
  rw [jsParseFloat,
    show jsParseFloatCore ("-1").data = ParsedFloat.fin false 1 0 0 from by decide,
    ParsedFloat.value]
  norm_num

/-- Evaluation of `parseFloat` on `"-5"`. -/
theorem parse_neg_five : jsParseFloat ("-5") = JSNum.num (-5) := by
  rw [jsParseFloat,
    show jsParseFloatCore ("-5").data = ParsedFloat.fin false 5 0 0 from by decide,
    ParsedFloat.value]
  norm_num

/-- A finite nonzero JS number is truthy. -/
theorem truthy_of_ne {q : ℚ} (h : q ≠ 0) : (JSNum.num q).truthy = true := by
  simp [JSNum.truthy, h]

/-- `Math.pow` on a finite base agrees with rational exponentiation. -/
theorem jsPow_num (a : ℚ) (n : Nat) : JSNum.pow (JSNum.num a) n = JSNum.num (a ^ n) := by
  induction n with
  | zero => rfl
  | succ k ih =>
    rw [JSNum.pow, ih]
    show JSNum.num (a * a ^ k) = JSNum.num (a ^ (k + 1))
    rw [pow_succ, mul_comm]

/-- A non-empty string has positive length. -/
theorem length_pos_of_ne_empty {v : String} (h : v ≠ "") : 1 ≤ v.length := by
  cases v with
  | mk data =>
    cases data with
    | nil => exact absurd rfl h
    | cons c cs =>
      show 1 ≤ (c :: cs).length
      simp

/-- The min-refinement closure the source discards would reject `-5` against
the grid baseline's min of `0`. -/
theorem min_check_rejects_neg : minRefineCheck gridBaselineMeta ("0") ("-5") = false := by
  show (if (("-5" : String) = "" : Bool) || (jsTrim ("-5") = "" : Bool)
      then !gridBaselineMeta.isRequired
      else JSNum.ge (jsParseFloat ("-5")) (jsParseFloat ("0"))) = false
  rw [show ((("-5" : String) = "" : Bool) || (jsTrim ("-5") = "" : Bool)) = false from by decide]
  rw [if_neg (by simp)]
  rw [parse_neg_five, parse_zero]
  rw [JSNum.ge]
  norm_num

/-! ### Claim theorems -/

/-- C1: the claim says the schema built for a numeric field rejects a
non-parseable value with "Must be a valid number", values below min with
"Must be at least min" and above max with "Must be at most max".  The source
discards every `.refine(...)` result in `buildFieldSchema` (zod's refine is
non-mutating), so the built schema carries only the required length check:
the grid baseline field (numeric, required, min "0") accepts "abc" (which
parses to NaN) and "-5" (below min 0), while the discarded refinement
closures would have rejected both. -/
theorem C1_numeric_rules_discarded :
    validateField gridStrategyConfig ("baseline-io-ratio") ("abc") = [] ∧
    jsParseFloat ("abc") = JSNum.nan ∧
    numericRefineCheck gridBaselineMeta ("abc") = false ∧
    validateField gridStrategyConfig ("baseline-io-ratio") ("-5") = [] ∧
    minRefineCheck gridBaselineMeta ("0") ("-5") = false ∧
    (buildFieldSchema gridBaselineMeta).checks.length = 1 ∧
    gridBaselineMeta.inputType = "number" := by
  refine ⟨by decide, by decide, by decide, by decide, min_check_rejects_neg, rfl, rfl⟩

/-- C2 (amended): a required field's built validator fails exactly on the
empty value, with message `binding + " is required"`; a whitespace-only value
passes the required rule (so "empty or whitespace-only fails" does not hold);
a field not marked required accepts every value, no rule applying at all. -/
theorem C2_required_rule (f : FieldMetadata) (v : String) :
    (f.isRequired = true →
      (buildFieldSchema f).parseErrors v
        = if v = "" then [f.binding ++ " is required"] else []) ∧
    (f.isRequired = false → (buildFieldSchema f).parseErrors v = []) := by
  constructor
  · intro hreq
    by_cases hv : v = ""
    · subst hv
      simp [buildFieldSchema, hreq, ZodStringSchema.parseErrors, ZodStringSchema.min,
        zodString, zodRunCheck]
    · have hlen := length_pos_of_ne_empty hv
      simp [buildFieldSchema, hreq, ZodStringSchema.parseErrors, ZodStringSchema.min,
        zodString, zodRunCheck, hv, hlen]
  · intro hreq
    simp [buildFieldSchema, hreq, ZodStringSchema.parseErrors, ZodStringSchema.optional,
      zodString]

/-- C2 witness: the grid baseline field is required and rejects the empty
value with its binding-derived message. -/
theorem C2_required_rule_witness :
    gridBaselineMeta.isRequired = true ∧
    (buildFieldSchema gridBaselineMeta).parseErrors ("")
      = [("baseline-io-ratio is required")] := by
  refine ⟨rfl, ?_⟩
  have h := (C2_required_rule gridBaselineMeta ("")).1 rfl
  simpa using h

/-- C2 counterexample: the claim as stated is false — the required grid
baseline field accepts the whitespace-only value `" "` (non-empty, trims to
empty), because `z.string().min(1)` counts the space character. -/
theorem C2_whitespace_accepted :
    gridBaselineMeta.isRequired = true ∧
    ((" " : String) ≠ "") ∧
    jsTrim (" ") = "" ∧
    validateField gridStrategyConfig ("baseline-io-ratio") (" ") = [] := by
  refine ⟨rfl, by decide, by decide, by decide⟩

/-- C10: `clearAllErrors` empties the errors map but leaves `isValid` false;
`clearFieldErrors` recomputes `isValid` as emptiness of the remaining errors;
hence `canSubmit` is false right after `clearAllErrors`, whatever the wallet,
strategy, deployment and has-required-values inputs are. -/
theorem C10_clear_errors_validity :
    (∀ s : ValidationState,
      (clearAllErrors s).errors = [] ∧ (clearAllErrors s).isValid = false) ∧
    (∀ (s : ValidationState) (f : String),
      (clearFieldErrors f s).isValid
        = (s.errors.filter (fun p => p.1 ≠ f)).isEmpty) ∧
    (∀ (w : WalletState) (st : StrategyState) (s : ValidationState)
      (d : DeploymentState) (hv : Bool),
      canSubmit w st (clearAllErrors s) d hv = false) := by
  refine ⟨fun s => ⟨rfl, rfl⟩, fun s f => rfl, fun w st s d hv => ?_⟩
  simp [canSubmit, clearAllErrors]

/-- C3 (amended): if any of the three grid inputs is missing, empty, parses
to NaN, or parses to exactly 0 — including growth exactly "0" with the other
two valid — then `calculateMaxReturns` returns 0 and `calculateGridLevels`
returns the empty sequence (never a partial result).  A value parsing to a
negative number is NOT rejected (see the counterexample). -/
theorem C3_total_failure (fv : List (String × String))
    (h : ∃ k ∈ gridCalculationKeys,
      match recordGet fv k with
      | none => True
      | some v => v = "" ∨ jsParseFloat v = JSNum.nan ∨ jsParseFloat v = JSNum.num 0) :
    calculateMaxReturns fv = JSNum.num 0 ∧ calculateGridLevels fv = [] := by
  obtain ⟨k, hk, hcase⟩ := h
  have hfalsy : (jsParseFloat (getOrZero fv k)).truthy = false := by
    rcases hval : recordGet fv k with _ | v
    · simp only [getOrZero, hval]
      rw [parse_zero]
      rfl
    · rw [hval] at hcase
      by_cases hv : v = ""
      · simp only [getOrZero, hval, if_pos hv]
        rw [parse_zero]
        rfl
      · rcases hcase with hc | hc | hc
        · exact absurd hc hv
        · simp only [getOrZero, hval, if_neg hv]
          rw [hc]
          rfl
        · simp only [getOrZero, hval, if_neg hv]
          rw [hc]
          rfl
  have hk3 : k = "baseline-io-ratio" ∨ k = "io-ratio-growth" ∨ k = "tranche-size" := by
    simpa [gridCalculationKeys] using hk
  constructor
  · rw [calculateMaxReturns]
    rcases hk3 with hke | hke | hke <;> rw [hke] at hfalsy <;> simp [hfalsy]
  · rw [calculateGridLevels]
    rcases hk3 with hke | hke | hke <;> rw [hke] at hfalsy <;> simp [hfalsy]

/-- C3 witness: at growth exactly "0" (baseline and tranche valid) both
calculations fail totally. -/
theorem C3_total_failure_witness :
    (∃ k ∈ gridCalculationKeys,
      match recordGet fvZeroGrowth k with
      | none => True
      | some v => v = "" ∨ jsParseFloat v = JSNum.nan ∨ jsParseFloat v = JSNum.num 0) ∧
    calculateMaxReturns fvZeroGrowth = JSNum.num 0 ∧ calculateGridLevels fvZeroGrowth = [] := by
  have hmem : ∃ k ∈ gridCalculationKeys,
      match recordGet fvZeroGrowth k with
      | none => True
      | some v => v = "" ∨ jsParseFloat v = JSNum.nan ∨ jsParseFloat v = JSNum.num 0 := by
    refine ⟨"io-ratio-growth", by decide, ?_⟩
    have : recordGet fvZeroGrowth ("io-ratio-growth") = some ("0") := by decide
    rw [this]
    exact Or.inr (Or.inr parse_zero)
  exact ⟨hmem, C3_total_failure fvZeroGrowth hmem⟩

/-- C3 counterexample: the claim as stated is false — a baseline of "-1"
(which parses to −1 ≤ 0) is not rejected: the truthiness guard `!x` only
catches NaN and 0, so the calculations proceed and return a full (negative)
ladder of 5 records and a nonzero max-returns figure. -/
theorem C3_negative_not_rejected :
    jsParseFloat ("-1") = JSNum.num (-1) ∧
    (calculateGridLevels fvNegativeBaseline).length = 5 ∧
    calculateMaxReturns fvNegativeBaseline ≠ JSNum.num 0 := by
  refine ⟨parse_neg_one, ?_, ?_⟩
  · rw [calculateGridLevels]
    rw [show getOrZero fvNegativeBaseline ("baseline-io-ratio") = "-1" from by decide,
      show getOrZero fvNegativeBaseline ("io-ratio-growth") = "0.1" from by decide,
      show getOrZero fvNegativeBaseline ("tranche-size") = "100" from by decide,
      parse_neg_one, parse_tenth, parse_hundred]
    norm_num [JSNum.truthy]
  · rw [calculateMaxReturns]
    rw [show getOrZero fvNegativeBaseline ("baseline-io-ratio") = "-1" from by decide,
      show getOrZero fvNegativeBaseline ("io-ratio-growth") = "0.1" from by decide,
      show getOrZero fvNegativeBaseline ("tranche-size") = "100" from by decide,
      parse_neg_one, parse_tenth, parse_hundred]
    norm_num [JSNum.truthy, JSNum.add, JSNum.mul, jsPow_num, List.range_succ]

/-- C4: when the three grid inputs parse to finite numbers > 0 with growth
> 0, `calculateGridLevels` returns exactly 5 records, the record at 0-indexed
level i being level i+1, price baseline·(1+growth)^i, amount trancheSize and
total price·trancheSize, with prices strictly increasing across the records. -/
theorem C4_grid_levels (fv : List (String × String)) (qb qg qt : ℚ)
    (hb : jsParseFloat (getOrZero fv ("baseline-io-ratio")) = JSNum.num qb)
    (hg : jsParseFloat (getOrZero fv ("io-ratio-growth")) = JSNum.num qg)
    (ht : jsParseFloat (getOrZero fv ("tranche-size")) = JSNum.num qt)
    (hbpos : 0 < qb) (hgpos : 0 < qg) (htpos : 0 < qt) :
    calculateGridLevels fv = (List.range 5).map (fun i =>
      { level := i + 1, price := JSNum.num (qb * (1 + qg) ^ i), amount := JSNum.num qt,
        total := JSNum.num (qb * (1 + qg) ^ i * qt) }) ∧
    List.Chain' (fun a b => JSNum.lt a.price b.price = true) (calculateGridLevels fv) := by
  have heq : calculateGridLevels fv = (List.range 5).map (fun i =>
      { level := i + 1, price := JSNum.num (qb * (1 + qg) ^ i), amount := JSNum.num qt,
        total := JSNum.num (qb * (1 + qg) ^ i * qt) }) := by
    simp only [calculateGridLevels, hb, hg, ht, truthy_of_ne (ne_of_gt hbpos),
      truthy_of_ne (ne_of_gt hgpos), truthy_of_ne (ne_of_gt htpos), Bool.not_true,
      Bool.or_self, Bool.false_or, if_false, Bool.false_eq_true]
    refine List.map_congr_left ?_
    intro i _
    simp [JSNum.add, JSNum.mul, jsPow_num]
  have hstep : ∀ i : ℕ, qb * (1 + qg) ^ i < qb * (1 + qg) ^ (i + 1) := by
    intro i
    have hpos : 0 < qb * (1 + qg) ^ i := mul_pos hbpos (pow_pos (by linarith) i)
    calc qb * (1 + qg) ^ i < qb * (1 + qg) ^ i * (1 + qg) :=
          lt_mul_of_one_lt_right hpos (by linarith)
      _ = qb * (1 + qg) ^ (i + 1) := by ring
  refine ⟨heq, ?_⟩
  rw [heq]
  rw [List.chain'_map]
  rw [show (5 : ℕ) = 4 + 1 from rfl, List.chain'_range_succ]
  intro m hm
  simp only [JSNum.lt, decide_eq_true_eq]
  exact hstep m

/-- C4 witness: the reference input baseline 0.5, growth 0.1, tranche 100
satisfies the hypotheses and yields the 5-level ladder of §8. -/
theorem C4_grid_levels_witness :
    jsParseFloat (getOrZero fvGoodGrid ("baseline-io-ratio")) = JSNum.num (1 / 2) ∧
    (0 : ℚ) < 1 / 2 ∧
    calculateGridLevels fvGoodGrid = (List.range 5).map (fun i =>
      { level := i + 1, price := JSNum.num (1 / 2 * (1 + 1 / 10) ^ i),
        amount := JSNum.num 100,
        total := JSNum.num (1 / 2 * (1 + 1 / 10) ^ i * 100) }) ∧
    List.Chain' (fun a b => JSNum.lt a.price b.price = true)
      (calculateGridLevels fvGoodGrid) := by
  have hb : jsParseFloat (getOrZero fvGoodGrid ("baseline-io-ratio")) = JSNum.num (1 / 2) := by
    rw [show getOrZero fvGoodGrid ("baseline-io-ratio") = "0.5" from by decide]
    exact parse_half
  have hg : jsParseFloat (getOrZero fvGoodGrid ("io-ratio-growth")) = JSNum.num (1 / 10) := by
    rw [show getOrZero fvGoodGrid ("io-ratio-growth") = "0.1" from by decide]
    exact parse_tenth
  have ht : jsParseFloat (getOrZero fvGoodGrid ("tranche-size")) = JSNum.num 100 := by
    rw [show getOrZero fvGoodGrid ("tranche-size") = "100" from by decide]
    exact parse_hundred
  have h := C4_grid_levels fvGoodGrid (1 / 2) (1 / 10) 100 hb hg ht
    (by norm_num) (by norm_num) (by norm_num)
  exact ⟨hb, by norm_num, h.1, h.2⟩

/-- The 10-level compounding sum computed by `calculateMaxReturns` whenever
all three parsed inputs are truthy (finite and nonzero). -/
theorem maxReturns_formula (fv : List (String × String)) (qb qg qt : ℚ)
    (hb : jsParseFloat (getOrZero fv ("baseline-io-ratio")) = JSNum.num qb)
    (hg : jsParseFloat (getOrZero fv ("io-ratio-growth")) = JSNum.num qg)
    (ht : jsParseFloat (getOrZero fv ("tranche-size")) = JSNum.num qt)
    (hb0 : qb ≠ 0) (hg0 : qg ≠ 0) (ht0 : qt ≠ 0) :
    calculateMaxReturns fv
      = JSNum.num (∑ i ∈ Finset.range 10, qb * (1 + qg) ^ i * qt) := by
  simp only [calculateMaxReturns, hb, hg, ht, truthy_of_ne hb0, truthy_of_ne hg0,
    truthy_of_ne ht0, Bool.not_true, Bool.or_self, Bool.false_or, if_false,
    Bool.false_eq_true]
  rw [show (List.range 10) = [0, 1, 2, 3, 4, 5, 6, 7, 8, 9] from rfl]
  simp only [List.foldl_cons, List.foldl_nil, JSNum.add, JSNum.mul, jsPow_num]
  rw [Finset.sum_range_succ, Finset.sum_range_succ, Finset.sum_range_succ,
    Finset.sum_range_succ, Finset.sum_range_succ, Finset.sum_range_succ,
    Finset.sum_range_succ, Finset.sum_range_succ, Finset.sum_range_succ,
    Finset.sum_range_succ, Finset.sum_range_zero]

/-- C5: for valid inputs `calculateMaxReturns` equals the sum over i = 0..9 of
baseline·(1+growth)^i·trancheSize (a fixed 10-level horizon, independent of
the 5-level visualization); at baseline 0.5, growth 0.1, tranche 100 the exact
value is 15937424601/20000000 = 796.87123005, within 0.01 of 796.87. -/
theorem C5_max_returns (fv : List (String × String)) (qb qg qt : ℚ)
    (hb : jsParseFloat (getOrZero fv ("baseline-io-ratio")) = JSNum.num qb)
    (hg : jsParseFloat (getOrZero fv ("io-ratio-growth")) = JSNum.num qg)
    (ht : jsParseFloat (getOrZero fv ("tranche-size")) = JSNum.num qt)
    (hbpos : 0 < qb) (hgpos : 0 < qg) (htpos : 0 < qt) :
    calculateMaxReturns fv
      = JSNum.num (∑ i ∈ Finset.range 10, qb * (1 + qg) ^ i * qt) ∧
    calculateMaxReturns fvGoodGrid = JSNum.num (15937424601 / 20000000) ∧
    |(15937424601 / 20000000 : ℚ) - 79687 / 100| < 1 / 100 := by
  refine ⟨maxReturns_formula fv qb qg qt hb hg ht (ne_of_gt hbpos) (ne_of_gt hgpos)
    (ne_of_gt htpos), ?_, by rw [abs_sub_lt_iff]; constructor <;> norm_num⟩
  have hcb : jsParseFloat (getOrZero fvGoodGrid ("baseline-io-ratio")) = JSNum.num (1 / 2) := by
    rw [show getOrZero fvGoodGrid ("baseline-io-ratio") = "0.5" from by decide]
    exact parse_half
  have hcg : jsParseFloat (getOrZero fvGoodGrid ("io-ratio-growth")) = JSNum.num (1 / 10) := by
    rw [show getOrZero fvGoodGrid ("io-ratio-growth") = "0.1" from by decide]
    exact parse_tenth
  have hct : jsParseFloat (getOrZero fvGoodGrid ("tranche-size")) = JSNum.num 100 := by
    rw [show getOrZero fvGoodGrid ("tranche-size") = "100" from by decide]
    exact parse_hundred
  rw [maxReturns_formula fvGoodGrid (1 / 2) (1 / 10) 100 hcb hcg hct
    (by norm_num) (by norm_num) (by norm_num)]
  congr 1
  rw [Finset.sum_range_succ, Finset.sum_range_succ, Finset.sum_range_succ,
    Finset.sum_range_succ, Finset.sum_range_succ, Finset.sum_range_succ,
    Finset.sum_range_succ, Finset.sum_range_succ, Finset.sum_range_succ,
    Finset.sum_range_succ, Finset.sum_range_zero]
  norm_num

/-- C5 witness: the hypotheses hold at the reference input and the sum
evaluates to the stated exact rational. -/
theorem C5_max_returns_witness :
    jsParseFloat (getOrZero fvGoodGrid ("baseline-io-ratio")) = JSNum.num (1 / 2) ∧
    (0 : ℚ) < 1 / 10 ∧
    calculateMaxReturns fvGoodGrid
      = JSNum.num (∑ i ∈ Finset.range 10, 1 / 2 * (1 + 1 / 10) ^ i * 100) ∧
    calculateMaxReturns fvGoodGrid = JSNum.num (15937424601 / 20000000) := by
  have hb : jsParseFloat (getOrZero fvGoodGrid ("baseline-io-ratio")) = JSNum.num (1 / 2) := by
    rw [show getOrZero fvGoodGrid ("baseline-io-ratio") = "0.5" from by decide]
    exact parse_half
  have hg : jsParseFloat (getOrZero fvGoodGrid ("io-ratio-growth")) = JSNum.num (1 / 10) := by
    rw [show getOrZero fvGoodGrid ("io-ratio-growth") = "0.1" from by decide]
    exact parse_tenth
  have ht : jsParseFloat (getOrZero fvGoodGrid ("tranche-size")) = JSNum.num 100 := by
    rw [show getOrZero fvGoodGrid ("tranche-size") = "100" from by decide]
    exact parse_hundred
  have h := C5_max_returns fvGoodGrid (1 / 2) (1 / 10) 100 hb hg ht
    (by norm_num) (by norm_num) (by norm_num)
  exact ⟨hb, by norm_num, h.1, h.2.1⟩

/-- C6 (amended): `hasRequiredValues` is true iff the Strategy Registry lookup
SUCCEEDS and every binding of the fields-to-check list — the strategy's
required-marked bindings, or the fixed 3-field fallback when the strategy
marks none as required — has a field value that is truthy, trims non-empty,
and is not the literal string "0" or "NaN" (string-level comparisons).  A
failed registry lookup yields false outright; the fallback is NOT used then. -/
theorem C6_has_required_values (s : StrategyState) :
    hasRequiredValues s = true ↔
      ∃ cfg, strategyRegistryGet s.strategyKey = some cfg ∧
        ∀ b ∈ requiredOrFallback cfg,
          checkRequiredValue (recordGet s.fieldValues b) = true := by
  rcases hreg : strategyRegistryGet s.strategyKey with _ | cfg
  · simp [hasRequiredValues, hreg]
  · simp only [hasRequiredValues, hreg]
    constructor
    · intro hall
      refine ⟨cfg, rfl, ?_⟩
      intro b hb
      rw [requiredOrFallback] at hb
      exact List.all_eq_true.mp hall b hb
    · rintro ⟨cfg2, hc2, hall⟩
      have hcc : cfg2 = cfg := by
        injection hc2 with h
        exact h.symm
      subst hcc
      refine List.all_eq_true.mpr ?_
      intro b hb
      refine hall b ?_
      rw [requiredOrFallback]
      exact hb

/-- C6 counterexample: the claim as stated is false — for an unregistered
strategy key whose field values all satisfy the per-value check of the
fallback list, `hasRequiredValues` is false (the code returns false on a
failed lookup; it does not fall back to the 3-field list). -/
theorem C6_lookup_failure_returns_false :
    hasRequiredValues cxRegistryState = false ∧
    strategyRegistryGet (cxRegistryState.strategyKey) = none ∧
    (fallbackRequiredFields.all
      (fun b => checkRequiredValue (recordGet cxRegistryState.fieldValues b))) = true := by
  refine ⟨by decide, by decide, by decide⟩

/-- The approval loop submits approvals in list order and stops at the first
failing submission, wrapping its message as `Approval failed: …`. -/
theorem submitApprovals_first_fail (outcomes : Nat → Except JSReject String) :
    ∀ (l : List Approval) (n j : Nat) (em : String),
      j < l.length →
      (∀ i, i < j → ∃ h, outcomes (n + i) = Except.ok h) →
      outcomes (n + j) = Except.error (some em) →
      submitApprovals outcomes l n
        = ((l.take (j + 1)).map (fun a => { data := a.calldata, toAddress := a.token }),
           some ("Approval failed: " ++ em)) := by
  intro l
  induction l with
  | nil =>
    intro n j em hj _ _
    exact absurd hj (by simp)
  | cons a rest ih =>
    intro n j em hj hok hfail
    cases j with
    | zero =>
      have h0 : outcomes n = Except.error (some em) := by simpa using hfail
      simp [submitApprovals, sendApprovalTransactionResult,
        sendBlockchainTransactionResult, h0]
    | succ k =>
      obtain ⟨h, hh⟩ := hok 0 (Nat.succ_pos k)
      have hh0 : outcomes n = Except.ok h := by simpa using hh
      have hok2 : ∀ i, i < k → ∃ h2, outcomes ((n + 1) + i) = Except.ok h2 := by
        intro i hi
        obtain ⟨h2, hh2⟩ := hok (i + 1) (by omega)
        refine ⟨h2, ?_⟩
        rw [show (n + 1) + i = n + (i + 1) from by omega]
        exact hh2
      have hfail2 : outcomes ((n + 1) + k) = Except.error (some em) := by
        rw [show (n + 1) + k = n + (k + 1) from by omega]
        exact hfail
      have hrec := ih (n + 1) k em (by simpa using hj) hok2 hfail2
      simp [submitApprovals, sendApprovalTransactionResult,
        sendBlockchainTransactionResult, hh0, hrec]

/-- All-success approval loop: every approval is submitted, in order, and no
failure is reported. -/
theorem submitApprovals_all_ok (outcomes : Nat → Except JSReject String) :
    ∀ (l : List Approval) (n : Nat),
      (∀ i, i < l.length → ∃ h, outcomes (n + i) = Except.ok h) →
      submitApprovals outcomes l n
        = (l.map (fun a => { data := a.calldata, toAddress := a.token }), none) := by
  intro l
  induction l with
  | nil => intro n _; rfl
  | cons a rest ih =>
    intro n hok
    obtain ⟨h, hh⟩ := hok 0 (by simp)
    have hh0 : outcomes n = Except.ok h := by simpa using hh
    have hok2 : ∀ i, i < rest.length → ∃ h2, outcomes ((n + 1) + i) = Except.ok h2 := by
      intro i hi
      obtain ⟨h2, hh2⟩ := hok (i + 1) (by simp; omega)
      refine ⟨h2, ?_⟩
      rw [show (n + 1) + i = n + (i + 1) from by omega]
      exact hh2
    have hrec := ih (n + 1) hok2
    simp [submitApprovals, sendApprovalTransactionResult,
      sendBlockchainTransactionResult, hh0, hrec]

/-- C7: when the wallet's connected chain id differs from the chain id in the
gateway's transaction-argument response, no transaction-submission call is
made (no approval, no deployment) and the deployment state ends in step
`error` with a message naming the required chain id, with `isDeploying`
false. -/
theorem C7_chain_guard (env : Env) (st : PageState) (args : TxArgs)
    (hconn : env.wallet.isConnected = true)
    (haddr : addressTruthy env.wallet.address = true)
    (hgui : env.guiAvailable = true)
    (hargs : env.gatewayArgs = Except.ok args)
    (hchain : env.wallet.chainId ≠ some args.chainId) :
    (handleFormSubmit env st).2 = [] ∧
    (handleFormSubmit env st).1.deployment.currentStep = Step.error ∧
    (handleFormSubmit env st).1.deployment.error
      = some ("Please switch to the correct network (Chain ID: "
          ++ toString args.chainId ++ ")") ∧
    (handleFormSubmit env st).1.deployment.isDeploying = false := by
  have hmain : handleFormSubmit env st = ({ st with
      deployment := setError (startDeployment st.deployment)
        ("Please switch to the correct network (Chain ID: "
          ++ toString args.chainId ++ ")") }, []) := by
    rw [handleFormSubmit]
    simp only [hconn, haddr, hgui, hargs, Bool.not_true, Bool.or_self, Bool.false_or,
      Bool.false_eq_true, if_false]
    rw [if_pos hchain]
  rw [hmain]
  exact ⟨rfl, rfl, rfl, rfl⟩

/-- C7 witness: a wallet on chain 1 against a gateway response requiring
chain 137 submits nothing and errors naming chain 137. -/
theorem C7_chain_guard_witness :
    envChainMismatch.wallet.chainId ≠ some txArgsNoApprovals.chainId ∧
    ((handleFormSubmit envChainMismatch pageState0).2 = [] ∧
     (handleFormSubmit envChainMismatch pageState0).1.deployment.currentStep = Step.error ∧
     (handleFormSubmit envChainMismatch pageState0).1.deployment.error
       = some ("Please switch to the correct network (Chain ID: "
           ++ toString txArgsNoApprovals.chainId ++ ")") ∧
     (handleFormSubmit envChainMismatch pageState0).1.deployment.isDeploying = false) := by
  refine ⟨by decide, C7_chain_guard envChainMismatch pageState0 txArgsNoApprovals
    rfl rfl rfl rfl (by decide)⟩

/-- C8: with a non-empty approval list, approvals are submitted strictly in
list order; if the (j+1)-th approval submission fails (all earlier ones
succeeded), the submission trace is exactly the first j+1 approvals — no
later approval and no deployment transaction — and the deployment state ends
in step `error` carrying that approval's wrapped failure message. -/
theorem C8_approval_abort (env : Env) (st : PageState) (args : TxArgs) (j : Nat) (em : String)
    (hconn : env.wallet.isConnected = true)
    (haddr : addressTruthy env.wallet.address = true)
    (hgui : env.guiAvailable = true)
    (hargs : env.gatewayArgs = Except.ok args)
    (hchain : env.wallet.chainId = some args.chainId)
    (hj : j < args.approvals.length)
    (hok : ∀ i, i < j → ∃ h, env.approvalOutcomes i = Except.ok h)
    (hfail : env.approvalOutcomes j = Except.error (some em)) :
    (handleFormSubmit env st).2
      = (args.approvals.take (j + 1)).map
          (fun a => { data := a.calldata, toAddress := a.token }) ∧
    (handleFormSubmit env st).1.deployment.currentStep = Step.error ∧
    (handleFormSubmit env st).1.deployment.error = some ("Approval failed: " ++ em) ∧
    (handleFormSubmit env st).1.deployment.isDeploying = false := by
  have hok0 : ∀ i, i < j → ∃ h, env.approvalOutcomes (0 + i) = Except.ok h := by
    intro i hi
    simpa using hok i hi
  have hfail0 : env.approvalOutcomes (0 + j) = Except.error (some em) := by
    simpa using hfail
  have hsub := submitApprovals_first_fail env.approvalOutcomes args.approvals 0 j em hj
    hok0 hfail0
  have hlen : args.approvals.length > 0 := by omega
  have hmain : handleFormSubmit env st = ({ st with
      deployment := setError (setStep (startDeployment st.deployment) Step.approving)
        ("Approval failed: " ++ em) },
      (args.approvals.take (j + 1)).map
        (fun a => { data := a.calldata, toAddress := a.token })) := by
    rw [handleFormSubmit]
    simp only [hconn, haddr, hgui, hargs, Bool.not_true, Bool.or_self, Bool.false_or,
      Bool.false_eq_true, if_false]
    rw [if_neg (fun hne => hne hchain)]
    rw [if_pos hlen, hsub]
  rw [hmain]
  exact ⟨rfl, rfl, rfl, rfl⟩

/-- C8 witness: two queued approvals, the first submission rejected by the
user — only the first approval is submitted and the state errors with its
message. -/
theorem C8_approval_abort_witness :
    envApprovalFail.approvalOutcomes 0 = Except.error (some ("user rejected request")) ∧
    ((handleFormSubmit envApprovalFail pageState0).2
      = [{ data := "0xapproveA", toAddress := "0xtokenA" }] ∧
     (handleFormSubmit envApprovalFail pageState0).1.deployment.currentStep = Step.error ∧
     (handleFormSubmit envApprovalFail pageState0).1.deployment.error
       = some ("Approval failed: " ++ "user rejected request") ∧
     (handleFormSubmit envApprovalFail pageState0).1.deployment.isDeploying = false) := by
  have h := C8_approval_abort envApprovalFail pageState0 txArgsTwoApprovals 0
    ("user rejected request") rfl rfl rfl rfl rfl (by decide)
    (fun i hi => absurd hi (by omega)) rfl
  exact ⟨rfl, by simpa using h.1, h.2.1, h.2.2.1, h.2.2.2⟩

/-- Merging the empty record is the identity: `setFieldValues({})` leaves the
field values unchanged. -/
theorem setFieldValues_empty (fv : List (String × String)) :
    setFieldValues fv [] = fv := by
  simp [setFieldValues, recordMerge, recordGet]

/-- C9 (amended): on the zero-approval success path exactly one submission
call is made (the deployment transaction); the deployment state ends
`success` with the transaction hash and the explorer URL derived from network
key and orderbook address, `isDeploying` false; the upstream validation store
is reset and the all-tokens-selected flag cleared, but the strategy store's
field values are left UNCHANGED — `setFieldValues({})` merges the empty
record and is a no-op — while the success fields stay populated; and
`clearSuccess` then returns the store to `idle`, clearing hash, URL and
error. -/
theorem C9_zero_approval_success (env : Env) (st : PageState) (args : TxArgs) (h : String)
    (hconn : env.wallet.isConnected = true)
    (haddr : addressTruthy env.wallet.address = true)
    (hgui : env.guiAvailable = true)
    (hargs : env.gatewayArgs = Except.ok args)
    (hchain : env.wallet.chainId = some args.chainId)
    (happrovals : args.approvals = [])
    (hdeploy : env.deployOutcome = Except.ok h) :
    (handleFormSubmit env st).2
      = [{ data := args.deploymentCalldata, toAddress := args.orderbookAddress }] ∧
    (handleFormSubmit env st).1.deployment
      = { isDeploying := false, currentStep := Step.success, transactionHash := some h,
          explorerUrl := some (createExplorerUrl env.networkKey args.orderbookAddress),
          error := none } ∧
    (handleFormSubmit env st).1.validation = validationStoreReset ∧
    (handleFormSubmit env st).1.fieldValues = st.fieldValues ∧
    (handleFormSubmit env st).1.allTokensSelected = false ∧
    clearSuccess (handleFormSubmit env st).1.deployment
      = { isDeploying := false, currentStep := Step.idle, transactionHash := none,
          explorerUrl := none, error := none } := by
  have hmain : handleFormSubmit env st =
      (resetFormAndStrategy { st with
        deployment := setSuccess (setStep (startDeployment st.deployment) Step.deploying) h
          (createExplorerUrl env.networkKey args.orderbookAddress) },
       [{ data := args.deploymentCalldata, toAddress := args.orderbookAddress }]) := by
    rw [handleFormSubmit]
    simp only [hconn, haddr, hgui, hargs, Bool.not_true, Bool.or_self, Bool.false_or,
      Bool.false_eq_true, if_false]
    rw [if_neg (fun hne => hne hchain)]
    rw [happrovals]
    simp only [List.length_nil, gt_iff_lt, lt_self_iff_false, if_false,
      submitApprovals, hdeploy, sendDeploymentTransactionResult,
      sendBlockchainTransactionResult, List.nil_append]
  rw [hmain]
  exact ⟨rfl, rfl, rfl, setFieldValues_empty st.fieldValues, rfl, rfl⟩

/-- C9 witness: the concrete zero-approval environment succeeds with one
submission and the derived explorer URL, the field values surviving
unchanged. -/
theorem C9_zero_approval_success_witness :
    txArgsNoApprovals.approvals = [] ∧
    ((handleFormSubmit envZeroApprovals pageState0).2
      = [{ data := "0xdeploycalldata", toAddress := "0xorderbook" }] ∧
     (handleFormSubmit envZeroApprovals pageState0).1.deployment
       = { isDeploying := false, currentStep := Step.success,
           transactionHash := some ("0xdeployhash"),
           explorerUrl := some ("https://v2.raindex.finance/orders/flare-0xorderbook"),
           error := none } ∧
     (handleFormSubmit envZeroApprovals pageState0).1.fieldValues
       = [("baseline-io-ratio", "0.5")] ∧
     clearSuccess (handleFormSubmit envZeroApprovals pageState0).1.deployment
       = { isDeploying := false, currentStep := Step.idle, transactionHash := none,
           explorerUrl := none, error := none }) := by
  have h := C9_zero_approval_success envZeroApprovals pageState0 txArgsNoApprovals
    ("0xdeployhash") rfl rfl rfl rfl rfl rfl rfl
  refine ⟨rfl, by simpa using h.1, ?_, ?_, h.2.2.2.2.2⟩
  · have h2 := h.2.1
    rw [h2]
    rfl
  · rw [h.2.2.2.1]
    rfl

/-- C9 counterexample: the claim's "upstream form/strategy state is reset" is
false of the program — after a successful zero-approval deployment the
strategy store's field values are unchanged and non-empty, because
`strategyStore.setFieldValues({})` merges the empty record into the existing
values instead of clearing them. -/
theorem C9_field_values_not_reset :
    (handleFormSubmit envZeroApprovals pageState0).1.deployment.currentStep
      = Step.success ∧
    (handleFormSubmit envZeroApprovals pageState0).2.length = 1 ∧
    pageState0.fieldValues = [("baseline-io-ratio", "0.5")] ∧
    (handleFormSubmit envZeroApprovals pageState0).1.fieldValues
      = [("baseline-io-ratio", "0.5")] ∧
    (handleFormSubmit envZeroApprovals pageState0).1.fieldValues ≠ [] := by
  refine ⟨by decide, by decide, by decide, by decide, by decide⟩
